import Mathlib

/-!
Shallow embedding of the point-cloud utility module (point_cloud.py).

The module manipulates nx3 numpy float arrays.  We embed a float scalar as an
exact number together with the IEEE special values NaN and plus/minus
infinity: rounding is abstracted away (arithmetic on ordinary values is
exact), while NaN/Inf propagation and the nan-compares-false comparison
semantics follow IEEE just as numpy implements them.

Two scalar carriers are used:
 * `F`, over the rationals, fully computable: it carries the filtering
   pipeline, the transform applier and the record-save wrappers, whose code
   uses only comparisons, ring operations and boolean masks;
 * `RF`, over the reals: it carries `ComputeNormals`, whose code divides by
   a Euclidean norm (a square root, hence the reals).

Calls into the native PCL engine (`PclComputeNormals`, `PclSavePcd`,
`PclSaveOrganizedPcd`, `PclVoxelize`, ...) are modelled by passing the
status code and the output buffer the engine would produce as explicit
arguments; the wrappers below reproduce exactly what the Python code does
with that response (which checks it performs, which exceptions it raises,
what it returns).  A returned `Bool` component records whether the engine
call was issued.  Python exceptions are modelled with `Except`.
-/

namespace PointCloud

/-- The error taxonomy: one constructor per distinct exception the Python
code can raise (`ioError` carries the file name of a failed save/load). -/
inductive Err where
  | configuration
  | sizeMismatch
  | ioError (fileName : String)
  | shapeMismatch
  | degeneracy
  | resource
deriving DecidableEq

/-- Computable float scalar: exact rational plus IEEE specials. -/
inductive F where
  | num (q : ℚ)
  | nan
  | inf
  | ninf
deriving DecidableEq

def F.isnan : F → Bool
  | .nan => true
  | _ => false

def F.isinf : F → Bool
  | .inf => true
  | .ninf => true
  | _ => false

/-- IEEE `<=`: any comparison involving NaN is false. -/
def F.leb : F → F → Bool
  | .nan, _ => false
  | _, .nan => false
  | .ninf, _ => true
  | .inf, .inf => true
  | .inf, _ => false
  | .num _, .inf => true
  | .num _, .ninf => false
  | .num a, .num b => decide (a ≤ b)

/-- IEEE `>=`, as numpy evaluates `x >= y`. -/
def F.geb (a b : F) : Bool := F.leb b a

def F.neg : F → F
  | .num a => .num (-a)
  | .nan => .nan
  | .inf => .ninf
  | .ninf => .inf

def F.add : F → F → F
  | .nan, _ => .nan
  | _, .nan => .nan
  | .num a, .num b => .num (a + b)
  | .inf, .ninf => .nan
  | .ninf, .inf => .nan
  | .inf, _ => .inf
  | _, .inf => .inf
  | .ninf, _ => .ninf
  | _, .ninf => .ninf

def F.mul : F → F → F
  | .nan, _ => .nan
  | _, .nan => .nan
  | .num a, .num b => .num (a * b)
  | .inf, .num b => if b = 0 then .nan else if 0 < b then .inf else .ninf
  | .num a, .inf => if a = 0 then .nan else if 0 < a then .inf else .ninf
  | .ninf, .num b => if b = 0 then .nan else if 0 < b then .ninf else .inf
  | .num a, .ninf => if a = 0 then .nan else if 0 < a then .ninf else .inf
  | .inf, .inf => .inf
  | .inf, .ninf => .ninf
  | .ninf, .inf => .ninf
  | .ninf, .ninf => .inf

def F.sub (a b : F) : F := a.add b.neg

/-- One row of an nx3 array. -/
structure Pt where
  x : F
  y : F
  z : F
deriving DecidableEq

abbrev Cloud := List Pt

/-- `cloud[:, axis]` for `axis` in 0..2. -/
def coord (p : Pt) (axis : Fin 3) : F :=
  if axis = 0 then p.x else if axis = 1 then p.y else p.z

/-- numpy boolean-mask row selection `a[mask]`: keep row i iff `mask[i]`. -/
def applyMask {α : Type} : List Bool → List α → List α
  | true :: m, v :: vs => v :: applyMask m vs
  | false :: m, _ :: vs => applyMask m vs
  | _, _ => []

/-- `isnan(cloud).any(axis=1)` for one row. -/
def hasNanPt (p : Pt) : Bool := p.x.isnan || p.y.isnan || p.z.isnan

/-- `FilterNans(cloud)`: `mask = logical_not(isnan(cloud).any(axis=1));
cloud = cloud[mask]`.  Note the source checks `isnan` only, not `isinf`. -/
def FilterNans (cloud : Cloud) : Cloud :=
  applyMask (cloud.map fun p => !hasNanPt p) cloud

/-- Per-row mask of `FilterNearAndFarPoints`:
`logical_and(cloud[:, axis] >= minDist, cloud[:, axis] <= maxDist)`. -/
def fnfMask (axis : Fin 3) (minDist maxDist : F) (p : Pt) : Bool :=
  F.geb (coord p axis) minDist && F.leb (coord p axis) maxDist

/-- `FilterNearAndFarPoints(axis, minDist, maxDist, cloud)` (the
`normals=None` path, which returns only the filtered cloud). -/
def FilterNearAndFarPoints (axis : Fin 3) (minDist maxDist : F) (cloud : Cloud) : Cloud :=
  applyMask (cloud.map (fnfMask axis minDist maxDist)) cloud

/-- `FilterNearAndFarPoints(axis, minDist, maxDist, cloud, normals)`: the
mask is computed from the cloud and applied to both arrays. -/
def FilterNearAndFarPointsN (axis : Fin 3) (minDist maxDist : F) (cloud normals : Cloud) :
    Cloud × Cloud :=
  let mask := cloud.map (fnfMask axis minDist maxDist)
  (applyMask mask cloud, applyMask mask normals)

/-- `[(minX, maxX), (minY, maxY), (minZ, maxZ)]`. -/
structure Workspace where
  xr : F × F
  yr : F × F
  zr : F × F

/-- Per-row mask of `FilterWorkspace`, with the grouping the source uses:
`(((((x >= minX) & (x <= maxX)) & (y >= minY)) & (y <= maxY)) & (z >= minZ)) & (z <= maxZ)`. -/
def wsMask (ws : Workspace) (p : Pt) : Bool :=
  ((((F.geb p.x ws.xr.1 && F.leb p.x ws.xr.2) && F.geb p.y ws.yr.1) &&
      F.leb p.y ws.yr.2) && F.geb p.z ws.zr.1) && F.leb p.z ws.zr.2

/-- `FilterWorkspace(workspace, cloud)` (the `normals=None` path). -/
def FilterWorkspace (ws : Workspace) (cloud : Cloud) : Cloud :=
  applyMask (cloud.map (wsMask ws)) cloud

/-- `FilterWorkspace(workspace, cloud, normals)`. -/
def FilterWorkspaceN (ws : Workspace) (cloud normals : Cloud) : Cloud × Cloud :=
  let mask := cloud.map (wsMask ws)
  (applyMask mask cloud, applyMask mask normals)

/- Basic lemmas on masked selection. -/

theorem applyMask_map_self {α : Type} (p : α → Bool) :
    ∀ l : List α, applyMask (l.map p) l = l.filter p := by
  intro l
  induction l with
  | nil => rfl
  | cons a t ih =>
    by_cases h : p a <;> simp [applyMask, List.filter, h, ih]

theorem applyMask_sublist {α : Type} :
    ∀ (m : List Bool) (l : List α), (applyMask m l).Sublist l := by
  intro m
  induction m with
  | nil => intro l; cases l <;> simp [applyMask]
  | cons b t ih =>
    intro l
    cases l with
    | nil => simp [applyMask]
    | cons a l =>
      cases b with
      | true => simpa [applyMask] using (ih l).cons₂ a
      | false => simpa [applyMask] using (ih l).cons a

theorem applyMask_map_zip {α β : Type} (p : α → Bool) :
    ∀ (xs : List α) (ys : List β), xs.length = ys.length →
      applyMask (xs.map p) (xs.zip ys) = (xs.zip ys).filter (fun ab => p ab.1) := by
  intro xs
  induction xs with
  | nil => intro ys _; rfl
  | cons a t ih =>
    intro ys h
    cases ys with
    | nil => simp at h
    | cons b u =>
      simp only [List.length_cons, Nat.succ_inj] at h
      have ihz := ih u h
      simp only [List.zip] at ihz ⊢
      by_cases hp : p a <;> simp [applyMask, List.filter, hp, ihz]

theorem zip_applyMask {α β : Type} :
    ∀ (m : List Bool) (xs : List α) (ys : List β), xs.length = ys.length →
      (applyMask m xs).zip (applyMask m ys) = applyMask m (xs.zip ys) := by
  intro m
  induction m with
  | nil => intro xs ys _; cases xs <;> cases ys <;> rfl
  | cons b t ih =>
    intro xs ys h
    cases xs with
    | nil => cases ys <;> simp [applyMask]
    | cons a u =>
      cases ys with
      | nil => simp at h
      | cons c v =>
        simp only [List.length_cons, Nat.succ_inj] at h
        have ihz := ih u v h
        simp only [List.zip] at ihz ⊢
        cases b with
        | true => simp [applyMask, ihz]
        | false => simp [applyMask, ihz]

theorem applyMask_length {α β : Type} :
    ∀ (m : List Bool) (xs : List α) (ys : List β), xs.length = ys.length →
      (applyMask m xs).length = (applyMask m ys).length := by
  intro m
  induction m with
  | nil => intro xs ys _; cases xs <;> cases ys <;> rfl
  | cons b t ih =>
    intro xs ys h
    cases xs with
    | nil => cases ys with
      | nil => cases b <;> simp [applyMask]
      | cons c v => simp at h
    | cons a u =>
      cases ys with
      | nil => simp at h
      | cons c v =>
        simp only [List.length_cons, Nat.succ_inj] at h
        cases b with
        | true => simp [applyMask, ih u v h]
        | false => simp [applyMask, ih u v h]

theorem leb_not_nan {a b : F} (h : F.leb a b = true) :
    a.isnan = false ∧ b.isnan = false := by
  cases a <;> cases b <;> simp_all [F.leb, F.isnan]

/-- C1 (counterexample): `FilterNans` keeps a point whose x coordinate is
infinite, so its output is not restricted to points with all-finite
coordinates. -/
theorem filterNans_keeps_inf_cex :
    FilterNans [⟨F.inf, F.num 0, F.num 0⟩] = [⟨F.inf, F.num 0, F.num 0⟩] ∧
      (F.inf).isinf = true := by
  constructor
  · rfl
  · rfl

/-- C1 (amended): `FilterNans(C)` is the subsequence of exactly those points
of C that have no NaN coordinate (points with an Inf coordinate but no NaN
are retained), keeping original values and relative order; the output
contains no point with a NaN coordinate. -/
theorem filterNans_spec (cloud : Cloud) :
    FilterNans cloud = cloud.filter (fun p => !hasNanPt p) ∧
      (FilterNans cloud).Sublist cloud ∧
      ((FilterNans cloud).all fun p => !hasNanPt p) = true := by
  refine ⟨applyMask_map_self _ cloud, applyMask_sublist _ cloud, ?_⟩
  show ((applyMask (cloud.map fun p => !hasNanPt p) cloud).all fun p => !hasNanPt p) = true
  rw [applyMask_map_self]
  simp only [List.all_eq_true]
  intro p hp
  exact (List.mem_filter.mp hp).2

/-- C10: `FilterWorkspace` keeps a point only when all six inclusive bound
comparisons hold, and a NaN coordinate fails its comparisons; likewise
`FilterNearAndFarPoints` keeps a point only when the comparisons on the
selected axis hold.  Hence both range filters silently discard NaN points. -/
theorem rangeFilters_discard_nan (ws : Workspace) (axis : Fin 3) (minDist maxDist : F)
    (cloud : Cloud) :
    ((FilterWorkspace ws cloud).all fun p =>
        !(p.x.isnan || p.y.isnan || p.z.isnan)) = true ∧
      ((FilterNearAndFarPoints axis minDist maxDist cloud).all fun p =>
        !(coord p axis).isnan) = true := by
  constructor
  · show ((applyMask (cloud.map (wsMask ws)) cloud).all fun p =>
        !(p.x.isnan || p.y.isnan || p.z.isnan)) = true
    rw [applyMask_map_self]
    simp only [List.all_eq_true]
    intro p hp
    have hm := (List.mem_filter.mp hp).2
    simp only [wsMask, Bool.and_eq_true] at hm
    have hx := (leb_not_nan hm.1.1.1.1.2).1
    have hy := (leb_not_nan hm.1.1.2).1
    have hz := (leb_not_nan hm.2).1
    simp [hx, hy, hz]
  · show ((applyMask (cloud.map (fnfMask axis minDist maxDist)) cloud).all fun p =>
        !(coord p axis).isnan) = true
    rw [applyMask_map_self]
    simp only [List.all_eq_true]
    intro p hp
    have hm := (List.mem_filter.mp hp).2
    simp only [fnfMask, Bool.and_eq_true] at hm
    simp [(leb_not_nan hm.2).1]

-- TRANSFORM APPLIER ------------------------------------------------------

/-- One row of a 4-column matrix (or a homogeneous 4-vector). -/
structure V4 where
  x : F
  y : F
  z : F
  w : F
deriving DecidableEq

/-- A 4x4 homogeneous transform, row by row. -/
structure Mat4 where
  r0 : V4
  r1 : V4
  r2 : V4
  r3 : V4
deriving DecidableEq

/-- One entry of `dot(T, X)`: a matrix row times a homogeneous column. -/
def dot4 (r v : V4) : F :=
  (((r.x.mul v.x).add (r.y.mul v.y)).add (r.z.mul v.z)).add (r.w.mul v.w)

/-- One point through `X = dot(T, X).T; X = X[:, 0:3]`: the source computes
all four rows of the product and the slice then drops the fourth. -/
def transformPoint (T : Mat4) (p : Pt) : Pt :=
  let v : V4 := ⟨p.x, p.y, p.z, F.num 1⟩
  let y0 := dot4 T.r0 v
  let y1 := dot4 T.r1 v
  let y2 := dot4 T.r2 v
  let _y3 := dot4 T.r3 v
  ⟨y0, y1, y2⟩

/-- One normal through `N = dot(T[0:3, 0:3], normals.T).T`: only the
rotation/scale block (rows 0..2, columns 0..2) is used. -/
def rotateNormal (T : Mat4) (n : Pt) : Pt :=
  ⟨((T.r0.x.mul n.x).add (T.r0.y.mul n.y)).add (T.r0.z.mul n.z),
   ((T.r1.x.mul n.x).add (T.r1.y.mul n.y)).add (T.r1.z.mul n.z),
   ((T.r2.x.mul n.x).add (T.r2.y.mul n.y)).add (T.r2.z.mul n.z)⟩

/-- `Transform(T, cloud)` (the `normals=None` path). -/
def Transform (T : Mat4) (cloud : Cloud) : Cloud :=
  cloud.map (transformPoint T)

/-- `Transform(T, cloud, normals)`. -/
def TransformN (T : Mat4) (cloud normals : Cloud) : Cloud × Cloud :=
  (cloud.map (transformPoint T), normals.map (rotateNormal T))

/-- C9: the output of `Transform` does not depend on the bottom row of the
matrix: the fourth homogeneous coordinate is computed and then discarded by
the `[:, 0:3]` slice, with no perspective division, and the normals path
uses only the upper-left 3x3 block. -/
theorem transform_ignores_bottom_row (T U : Mat4) (cloud normals : Cloud)
    (h0 : T.r0 = U.r0) (h1 : T.r1 = U.r1) (h2 : T.r2 = U.r2) :
    Transform T cloud = Transform U cloud ∧
      TransformN T cloud normals = TransformN U cloud normals := by
  have hp : transformPoint T = transformPoint U := by
    funext p
    simp [transformPoint, h0, h1, h2]
  have hn : rotateNormal T = rotateNormal U := by
    funext n
    simp [rotateNormal, h0, h1, h2]
  exact ⟨by simp [Transform, hp], by simp [TransformN, hp, hn]⟩

/-- C9 (witness): two concrete matrices differing only in the bottom row
transform a concrete cloud and normals identically. -/
theorem transform_ignores_bottom_row_w :
    Transform
        ⟨⟨F.num 1, F.num 0, F.num 0, F.num 5⟩, ⟨F.num 0, F.num 1, F.num 0, F.num 6⟩,
         ⟨F.num 0, F.num 0, F.num 1, F.num 7⟩, ⟨F.num 0, F.num 0, F.num 0, F.num 1⟩⟩
        [⟨F.num 1, F.num 2, F.num 3⟩] =
      Transform
        ⟨⟨F.num 1, F.num 0, F.num 0, F.num 5⟩, ⟨F.num 0, F.num 1, F.num 0, F.num 6⟩,
         ⟨F.num 0, F.num 0, F.num 1, F.num 7⟩, ⟨F.num 9, F.num 9, F.num 9, F.num 9⟩⟩
        [⟨F.num 1, F.num 2, F.num 3⟩] ∧
      TransformN
        ⟨⟨F.num 1, F.num 0, F.num 0, F.num 5⟩, ⟨F.num 0, F.num 1, F.num 0, F.num 6⟩,
         ⟨F.num 0, F.num 0, F.num 1, F.num 7⟩, ⟨F.num 0, F.num 0, F.num 0, F.num 1⟩⟩
        [⟨F.num 1, F.num 2, F.num 3⟩] [⟨F.num 0, F.num 1, F.num 0⟩] =
      TransformN
        ⟨⟨F.num 1, F.num 0, F.num 0, F.num 5⟩, ⟨F.num 0, F.num 1, F.num 0, F.num 6⟩,
         ⟨F.num 0, F.num 0, F.num 1, F.num 7⟩, ⟨F.num 9, F.num 9, F.num 9, F.num 9⟩⟩
        [⟨F.num 1, F.num 2, F.num 3⟩] [⟨F.num 0, F.num 1, F.num 0⟩] :=
  transform_ignores_bottom_row _ _ _ _ rfl rfl rfl

-- RECORD-SAVE AND ADAPTER WRAPPERS ---------------------------------------

/-- `SaveOrganizedPcd(fileName, cloud, height, width)`.  The status code the
native call `PclSaveOrganizedPcd` would return is passed in as
`engineStatus`; the `Bool` component records whether that call was issued.
The source calls the engine unconditionally (no shape check) and raises a
generic save exception iff the status is negative. -/
def SaveOrganizedPcd (engineStatus : Int) (fileName : String) (cloud : Cloud)
    (height width : Int) : Except Err Unit × Bool :=
  (if engineStatus < 0 then .error (.ioError fileName) else .ok (), true)

/-- C2 (counterexample): called on a 1-point cloud with `height = 2`,
`width = 3` (so `height * width` differs from the point count) and a
succeeding engine, `SaveOrganizedPcd` issues the engine save call and
returns success, instead of failing with a shape error before any write. -/
theorem saveOrganizedPcd_no_shape_check_cex :
    (SaveOrganizedPcd 0 "cloud.pcd" [⟨F.num 0, F.num 0, F.num 0⟩] 2 3).2 = true ∧
      (SaveOrganizedPcd 0 "cloud.pcd" [⟨F.num 0, F.num 0, F.num 0⟩] 2 3).1 = .ok () ∧
      ([⟨F.num 0, F.num 0, F.num 0⟩] : Cloud).length = 1 ∧ (2 * 3 : Int) ≠ 1 := by
  refine ⟨rfl, ?_, rfl, by decide⟩
  simp [SaveOrganizedPcd]

/-- C2 (amended): `SaveOrganizedPcd` performs no shape validation: for every
cloud, height and width it issues the engine save call, and it raises (a
generic save error, not a shape error) exactly when the engine reports a
negative status. -/
theorem saveOrganizedPcd_behavior (engineStatus : Int) (fileName : String)
    (cloud : Cloud) (height width : Int) :
    (SaveOrganizedPcd engineStatus fileName cloud height width).2 = true ∧
      ((SaveOrganizedPcd engineStatus fileName cloud height width).1 =
          .error (.ioError fileName) ↔ engineStatus < 0) ∧
      ((SaveOrganizedPcd engineStatus fileName cloud height width).1 = .ok () ↔
          0 ≤ engineStatus) := by
  refine ⟨rfl, ?_, ?_⟩ <;> by_cases h : engineStatus < 0 <;>
      simp [SaveOrganizedPcd, h] <;> omega

/-- `Voxelize(cloud, voxelSize)`.  The status code and output buffer of the
native `PclVoxelize` call are passed in; the source ignores the status
entirely, performs no parameter validation, and returns the copied buffer.
The `Bool` component records that the engine call was issued. -/
def Voxelize (engineStatus : Int) (engineOut : Cloud) (cloud : Cloud) (voxelSize : F) :
    Except Err Cloud × Bool :=
  (.ok engineOut, true)

/-- `RemoveStatisticalOutliers(cloud, meanK, stddevMulThresh)`: same shape
as `Voxelize`; no validation, status ignored. -/
def RemoveStatisticalOutliers (engineStatus : Int) (engineOut : Cloud) (cloud : Cloud)
    (meanK : Int) (stddevMulThresh : F) : Except Err Cloud × Bool :=
  (.ok engineOut, true)

/-- `SegmentPlane(cloud, distanceThreshold)`: returns the copied index
buffer; no validation, status ignored. -/
def SegmentPlane (engineStatus : Int) (engineOut : List Int) (cloud : Cloud)
    (distanceThreshold : F) : Except Err (List Int) × Bool :=
  (.ok engineOut, true)

/-- C3 (counterexample): each adapter, called with an invalid parameter
(`voxelSize = -1`; `meanK = 0` and `stddevMulThresh = -1`;
`distanceThreshold = -1`) and an engine reporting failure status `-1`,
still issues the engine call and returns the engine output rather than
raising any typed error. -/
theorem adapters_no_validation_cex :
    Voxelize (-1) [] [⟨F.num 0, F.num 0, F.num 0⟩] (F.num (-1)) = (.ok [], true) ∧
      RemoveStatisticalOutliers (-1) [] [⟨F.num 0, F.num 0, F.num 0⟩] 0 (F.num (-1)) =
        (.ok [], true) ∧
      SegmentPlane (-1) [] [⟨F.num 0, F.num 0, F.num 0⟩] (F.num (-1)) = (.ok [], true) := by
  exact ⟨rfl, rfl, rfl⟩

/-- C3 (amended): `Voxelize`, `RemoveStatisticalOutliers` and `SegmentPlane`
validate nothing and never inspect the engine status: for every parameter
value and every status code, the engine call is issued and the copied
engine output is returned; no typed error is ever raised. -/
theorem adapters_behavior (engineStatus : Int) (engineOut : Cloud) (indicesOut : List Int)
    (cloud : Cloud) (voxelSize stddevMulThresh distanceThreshold : F) (meanK : Int) :
    Voxelize engineStatus engineOut cloud voxelSize = (.ok engineOut, true) ∧
      RemoveStatisticalOutliers engineStatus engineOut cloud meanK stddevMulThresh =
        (.ok engineOut, true) ∧
      SegmentPlane engineStatus indicesOut cloud distanceThreshold =
        (.ok indicesOut, true) := by
  exact ⟨rfl, rfl, rfl⟩

-- STAGE COMPOSITION ------------------------------------------------------

theorem filter_conj {α : Type} (p q : α → Bool) :
    ∀ l : List α, (l.filter p).filter q = l.filter fun a => p a && q a := by
  intro l
  induction l with
  | nil => rfl
  | cons a t ih =>
    by_cases hp : p a <;> by_cases hq : q a <;> simp [List.filter, hp, hq, ih]

/-- Applying a mask computed from `xs` to both `xs` and a second array, then
a mask computed from the filtered `xs` again to both outputs, is the same as
applying the conjunction mask once. -/
theorem applyMask_comm {α β : Type} (p q : α → Bool) :
    ∀ (xs : List α) (ys : List β), xs.length = ys.length →
      applyMask ((applyMask (xs.map p) xs).map q) (applyMask (xs.map p) ys) =
        applyMask (xs.map fun a => p a && q a) ys := by
  intro xs
  induction xs with
  | nil =>
    intro ys h
    cases ys with
    | nil => rfl
    | cons b u => simp at h
  | cons a t ih =>
    intro ys h
    cases ys with
    | nil => simp at h
    | cons b u =>
      simp only [List.length_cons, Nat.succ_inj] at h
      by_cases hp : p a
      · by_cases hq : q a <;> simp [applyMask, hp, hq, ih u h]
      · simp [applyMask, hp, ih u h]

/-- C7: each operation that accepts both a cloud and normals
(`FilterNearAndFarPoints`, `FilterWorkspace`, `Transform`) produces outputs
of equal length, and output index i of the normals corresponds to output
index i of the cloud: for the two filters the zipped output is a
subsequence of the zipped input (one retention mask applied to both), and
for `Transform` the zipped output is the per-index image of the zipped
input. -/
theorem operations_keep_correspondence (axis : Fin 3) (minDist maxDist : F)
    (ws : Workspace) (T : Mat4) (cloud normals : Cloud)
    (h : normals.length = cloud.length) :
    ((FilterNearAndFarPointsN axis minDist maxDist cloud normals).1.length =
        (FilterNearAndFarPointsN axis minDist maxDist cloud normals).2.length ∧
      ((FilterNearAndFarPointsN axis minDist maxDist cloud normals).1.zip
          (FilterNearAndFarPointsN axis minDist maxDist cloud normals).2).Sublist
        (cloud.zip normals)) ∧
    ((FilterWorkspaceN ws cloud normals).1.length =
        (FilterWorkspaceN ws cloud normals).2.length ∧
      ((FilterWorkspaceN ws cloud normals).1.zip
          (FilterWorkspaceN ws cloud normals).2).Sublist (cloud.zip normals)) ∧
    ((TransformN T cloud normals).1.length = (TransformN T cloud normals).2.length ∧
      (TransformN T cloud normals).1.zip (TransformN T cloud normals).2 =
        (cloud.zip normals).map fun pn => (transformPoint T pn.1, rotateNormal T pn.2)) := by
  have hcn : cloud.length = normals.length := h.symm
  have stage : ∀ mask : Pt → Bool,
      (applyMask (cloud.map mask) cloud).length =
          (applyMask (cloud.map mask) normals).length ∧
        ((applyMask (cloud.map mask) cloud).zip
            (applyMask (cloud.map mask) normals)).Sublist (cloud.zip normals) := by
    intro mask
    refine ⟨applyMask_length _ _ _ hcn, ?_⟩
    rw [zip_applyMask _ _ _ hcn]
    exact applyMask_sublist _ _
  refine ⟨stage _, stage _, ?_, ?_⟩
  · show (cloud.map (transformPoint T)).length = (normals.map (rotateNormal T)).length
    simp [hcn]
  · show (cloud.map (transformPoint T)).zip (normals.map (rotateNormal T)) =
      (cloud.zip normals).map fun pn => (transformPoint T pn.1, rotateNormal T pn.2)
    rw [List.zip_map]
    simp [Prod.map]

/-- C7 (witness): a concrete 2-point cloud with 2 normals through all three
operations. -/
theorem operations_keep_correspondence_w :
    ([⟨F.num 1, F.num 0, F.num 0⟩, ⟨F.num 2, F.num 0, F.num 0⟩] : Cloud).length =
        ([⟨F.num 5, F.num 0, F.num 0⟩, ⟨F.num 6, F.num 0, F.num 0⟩] : Cloud).length ∧
      ((FilterNearAndFarPointsN 0 (F.num 0) (F.num 1)
              [⟨F.num 5, F.num 0, F.num 0⟩, ⟨F.num 6, F.num 0, F.num 0⟩]
              [⟨F.num 1, F.num 0, F.num 0⟩, ⟨F.num 2, F.num 0, F.num 0⟩]).1.length =
          (FilterNearAndFarPointsN 0 (F.num 0) (F.num 1)
              [⟨F.num 5, F.num 0, F.num 0⟩, ⟨F.num 6, F.num 0, F.num 0⟩]
              [⟨F.num 1, F.num 0, F.num 0⟩, ⟨F.num 2, F.num 0, F.num 0⟩]).2.length ∧
        ((FilterNearAndFarPointsN 0 (F.num 0) (F.num 1)
              [⟨F.num 5, F.num 0, F.num 0⟩, ⟨F.num 6, F.num 0, F.num 0⟩]
              [⟨F.num 1, F.num 0, F.num 0⟩, ⟨F.num 2, F.num 0, F.num 0⟩]).1.zip
            (FilterNearAndFarPointsN 0 (F.num 0) (F.num 1)
              [⟨F.num 5, F.num 0, F.num 0⟩, ⟨F.num 6, F.num 0, F.num 0⟩]
              [⟨F.num 1, F.num 0, F.num 0⟩, ⟨F.num 2, F.num 0, F.num 0⟩]).2).Sublist
          (([⟨F.num 5, F.num 0, F.num 0⟩, ⟨F.num 6, F.num 0, F.num 0⟩] : Cloud).zip
            [⟨F.num 1, F.num 0, F.num 0⟩, ⟨F.num 2, F.num 0, F.num 0⟩])) ∧
      ((FilterWorkspaceN ⟨(F.num 0, F.num 1), (F.num 0, F.num 1), (F.num 0, F.num 1)⟩
              [⟨F.num 5, F.num 0, F.num 0⟩, ⟨F.num 6, F.num 0, F.num 0⟩]
              [⟨F.num 1, F.num 0, F.num 0⟩, ⟨F.num 2, F.num 0, F.num 0⟩]).1.length =
          (FilterWorkspaceN ⟨(F.num 0, F.num 1), (F.num 0, F.num 1), (F.num 0, F.num 1)⟩
              [⟨F.num 5, F.num 0, F.num 0⟩, ⟨F.num 6, F.num 0, F.num 0⟩]
              [⟨F.num 1, F.num 0, F.num 0⟩, ⟨F.num 2, F.num 0, F.num 0⟩]).2.length ∧
        ((FilterWorkspaceN ⟨(F.num 0, F.num 1), (F.num 0, F.num 1), (F.num 0, F.num 1)⟩
              [⟨F.num 5, F.num 0, F.num 0⟩, ⟨F.num 6, F.num 0, F.num 0⟩]
              [⟨F.num 1, F.num 0, F.num 0⟩, ⟨F.num 2, F.num 0, F.num 0⟩]).1.zip
            (FilterWorkspaceN ⟨(F.num 0, F.num 1), (F.num 0, F.num 1), (F.num 0, F.num 1)⟩
              [⟨F.num 5, F.num 0, F.num 0⟩, ⟨F.num 6, F.num 0, F.num 0⟩]
              [⟨F.num 1, F.num 0, F.num 0⟩, ⟨F.num 2, F.num 0, F.num 0⟩]).2).Sublist
          (([⟨F.num 5, F.num 0, F.num 0⟩, ⟨F.num 6, F.num 0, F.num 0⟩] : Cloud).zip
            [⟨F.num 1, F.num 0, F.num 0⟩, ⟨F.num 2, F.num 0, F.num 0⟩])) ∧
      ((TransformN ⟨⟨F.num 1, F.num 0, F.num 0, F.num 0⟩, ⟨F.num 0, F.num 1, F.num 0, F.num 0⟩,
              ⟨F.num 0, F.num 0, F.num 1, F.num 0⟩, ⟨F.num 0, F.num 0, F.num 0, F.num 1⟩⟩
              [⟨F.num 5, F.num 0, F.num 0⟩, ⟨F.num 6, F.num 0, F.num 0⟩]
              [⟨F.num 1, F.num 0, F.num 0⟩, ⟨F.num 2, F.num 0, F.num 0⟩]).1.length =
          (TransformN ⟨⟨F.num 1, F.num 0, F.num 0, F.num 0⟩, ⟨F.num 0, F.num 1, F.num 0, F.num 0⟩,
              ⟨F.num 0, F.num 0, F.num 1, F.num 0⟩, ⟨F.num 0, F.num 0, F.num 0, F.num 1⟩⟩
              [⟨F.num 5, F.num 0, F.num 0⟩, ⟨F.num 6, F.num 0, F.num 0⟩]
              [⟨F.num 1, F.num 0, F.num 0⟩, ⟨F.num 2, F.num 0, F.num 0⟩]).2.length ∧
        (TransformN ⟨⟨F.num 1, F.num 0, F.num 0, F.num 0⟩, ⟨F.num 0, F.num 1, F.num 0, F.num 0⟩,
              ⟨F.num 0, F.num 0, F.num 1, F.num 0⟩, ⟨F.num 0, F.num 0, F.num 0, F.num 1⟩⟩
              [⟨F.num 5, F.num 0, F.num 0⟩, ⟨F.num 6, F.num 0, F.num 0⟩]
              [⟨F.num 1, F.num 0, F.num 0⟩, ⟨F.num 2, F.num 0, F.num 0⟩]).1.zip
            (TransformN ⟨⟨F.num 1, F.num 0, F.num 0, F.num 0⟩, ⟨F.num 0, F.num 1, F.num 0, F.num 0⟩,
              ⟨F.num 0, F.num 0, F.num 1, F.num 0⟩, ⟨F.num 0, F.num 0, F.num 0, F.num 1⟩⟩
              [⟨F.num 5, F.num 0, F.num 0⟩, ⟨F.num 6, F.num 0, F.num 0⟩]
              [⟨F.num 1, F.num 0, F.num 0⟩, ⟨F.num 2, F.num 0, F.num 0⟩]).2 =
          (([⟨F.num 5, F.num 0, F.num 0⟩, ⟨F.num 6, F.num 0, F.num 0⟩] : Cloud).zip
              [⟨F.num 1, F.num 0, F.num 0⟩, ⟨F.num 2, F.num 0, F.num 0⟩]).map
            fun pn =>
              (transformPoint ⟨⟨F.num 1, F.num 0, F.num 0, F.num 0⟩,
                  ⟨F.num 0, F.num 1, F.num 0, F.num 0⟩, ⟨F.num 0, F.num 0, F.num 1, F.num 0⟩,
                  ⟨F.num 0, F.num 0, F.num 0, F.num 1⟩⟩ pn.1,
                rotateNormal ⟨⟨F.num 1, F.num 0, F.num 0, F.num 0⟩,
                  ⟨F.num 0, F.num 1, F.num 0, F.num 0⟩, ⟨F.num 0, F.num 0, F.num 1, F.num 0⟩,
                  ⟨F.num 0, F.num 0, F.num 0, F.num 1⟩⟩ pn.2)) :=
  ⟨rfl, operations_keep_correspondence 0 (F.num 0) (F.num 1)
    ⟨(F.num 0, F.num 1), (F.num 0, F.num 1), (F.num 0, F.num 1)⟩
    ⟨⟨F.num 1, F.num 0, F.num 0, F.num 0⟩, ⟨F.num 0, F.num 1, F.num 0, F.num 0⟩,
      ⟨F.num 0, F.num 0, F.num 1, F.num 0⟩, ⟨F.num 0, F.num 0, F.num 0, F.num 1⟩⟩
    [⟨F.num 5, F.num 0, F.num 0⟩, ⟨F.num 6, F.num 0, F.num 0⟩]
    [⟨F.num 1, F.num 0, F.num 0⟩, ⟨F.num 2, F.num 0, F.num 0⟩] rfl⟩

/-- C8: composing any two of the filtering stages `FilterNans`,
`FilterNearAndFarPoints`, `FilterWorkspace` in either order yields the same
final cloud, equal to filtering by the conjunction of the two per-point
masks; for the two stages that also accept normals, the same holds for the
(cloud, normals) pair. -/
theorem filter_stages_commute (ws : Workspace) (axis : Fin 3) (minDist maxDist : F)
    (cloud normals : Cloud) (h : normals.length = cloud.length) :
    (FilterNans (FilterWorkspace ws cloud) = FilterWorkspace ws (FilterNans cloud) ∧
      FilterNans (FilterWorkspace ws cloud) =
        cloud.filter fun p => wsMask ws p && !hasNanPt p) ∧
    (FilterNans (FilterNearAndFarPoints axis minDist maxDist cloud) =
        FilterNearAndFarPoints axis minDist maxDist (FilterNans cloud) ∧
      FilterNans (FilterNearAndFarPoints axis minDist maxDist cloud) =
        cloud.filter fun p => fnfMask axis minDist maxDist p && !hasNanPt p) ∧
    (FilterWorkspace ws (FilterNearAndFarPoints axis minDist maxDist cloud) =
        FilterNearAndFarPoints axis minDist maxDist (FilterWorkspace ws cloud) ∧
      FilterWorkspace ws (FilterNearAndFarPoints axis minDist maxDist cloud) =
        cloud.filter fun p => fnfMask axis minDist maxDist p && wsMask ws p) ∧
    (FilterWorkspaceN ws (FilterNearAndFarPointsN axis minDist maxDist cloud normals).1
        (FilterNearAndFarPointsN axis minDist maxDist cloud normals).2 =
      FilterNearAndFarPointsN axis minDist maxDist
        (FilterWorkspaceN ws cloud normals).1 (FilterWorkspaceN ws cloud normals).2 ∧
      FilterWorkspaceN ws (FilterNearAndFarPointsN axis minDist maxDist cloud normals).1
        (FilterNearAndFarPointsN axis minDist maxDist cloud normals).2 =
        (applyMask (cloud.map fun p => fnfMask axis minDist maxDist p && wsMask ws p) cloud,
         applyMask (cloud.map fun p => fnfMask axis minDist maxDist p && wsMask ws p)
           normals)) := by
  have key : ∀ p q : Pt → Bool,
      applyMask ((applyMask (cloud.map p) cloud).map q) (applyMask (cloud.map p) cloud) =
        cloud.filter fun a => p a && q a := by
    intro p q
    rw [applyMask_map_self, applyMask_map_self, filter_conj]
  have pairKey : ∀ p q : Pt → Bool,
      (applyMask ((applyMask (cloud.map p) cloud).map q) (applyMask (cloud.map p) cloud),
        applyMask ((applyMask (cloud.map p) cloud).map q) (applyMask (cloud.map p) normals)) =
      (applyMask (cloud.map fun a => p a && q a) cloud,
        applyMask (cloud.map fun a => p a && q a) normals) := by
    intro p q
    rw [applyMask_comm p q cloud cloud rfl, applyMask_comm p q cloud normals h.symm]
  have cloudComm : ∀ p q : Pt → Bool,
      applyMask ((applyMask (cloud.map p) cloud).map q) (applyMask (cloud.map p) cloud) =
        applyMask ((applyMask (cloud.map q) cloud).map p) (applyMask (cloud.map q) cloud) := by
    intro p q
    rw [key p q, key q p]
    have e : (fun a => p a && q a) = fun a => q a && p a := funext fun a => Bool.and_comm _ _
    rw [e]
  refine ⟨⟨?_, ?_⟩, ⟨?_, ?_⟩, ⟨?_, ?_⟩, ?_, ?_⟩
  · exact cloudComm (wsMask ws) (fun p => !hasNanPt p)
  · exact key (wsMask ws) (fun p => !hasNanPt p)
  · exact cloudComm (fnfMask axis minDist maxDist) (fun p => !hasNanPt p)
  · exact key (fnfMask axis minDist maxDist) (fun p => !hasNanPt p)
  · exact cloudComm (fnfMask axis minDist maxDist) (wsMask ws)
  · exact key (fnfMask axis minDist maxDist) (wsMask ws)
  · show (applyMask
        ((applyMask (cloud.map (fnfMask axis minDist maxDist)) cloud).map (wsMask ws))
        (applyMask (cloud.map (fnfMask axis minDist maxDist)) cloud),
      applyMask
        ((applyMask (cloud.map (fnfMask axis minDist maxDist)) cloud).map (wsMask ws))
        (applyMask (cloud.map (fnfMask axis minDist maxDist)) normals)) =
      (applyMask
        ((applyMask (cloud.map (wsMask ws)) cloud).map (fnfMask axis minDist maxDist))
        (applyMask (cloud.map (wsMask ws)) cloud),
      applyMask
        ((applyMask (cloud.map (wsMask ws)) cloud).map (fnfMask axis minDist maxDist))
        (applyMask (cloud.map (wsMask ws)) normals))
    rw [pairKey, pairKey]
    have e : (fun a => fnfMask axis minDist maxDist a && wsMask ws a) =
        fun a => wsMask ws a && fnfMask axis minDist maxDist a :=
      funext fun a => Bool.and_comm _ _
    rw [e]
  · exact pairKey (fnfMask axis minDist maxDist) (wsMask ws)

/-- Concrete unit-box workspace for witnesses. -/
def wsUnit : Workspace := ⟨(F.num 0, F.num 1), (F.num 0, F.num 1), (F.num 0, F.num 1)⟩

/-- Concrete 2-point cloud for witnesses. -/
def cloudW : Cloud := [⟨F.num 0, F.num 0, F.num 0⟩, ⟨F.num 2, F.num 0, F.num 0⟩]

/-- Concrete 2-normal array for witnesses. -/
def normalsW : Cloud := [⟨F.num 1, F.num 0, F.num 0⟩, ⟨F.num 0, F.num 1, F.num 0⟩]

/-- C8 (witness): the commutation theorem applied to a concrete cloud,
normals, workspace and axis range. -/
theorem filter_stages_commute_w :
    normalsW.length = cloudW.length ∧
      ((FilterNans (FilterWorkspace wsUnit cloudW) =
          FilterWorkspace wsUnit (FilterNans cloudW) ∧
        FilterNans (FilterWorkspace wsUnit cloudW) =
          cloudW.filter fun p => wsMask wsUnit p && !hasNanPt p) ∧
      (FilterNans (FilterNearAndFarPoints 0 (F.num 0) (F.num 1) cloudW) =
          FilterNearAndFarPoints 0 (F.num 0) (F.num 1) (FilterNans cloudW) ∧
        FilterNans (FilterNearAndFarPoints 0 (F.num 0) (F.num 1) cloudW) =
          cloudW.filter fun p => fnfMask 0 (F.num 0) (F.num 1) p && !hasNanPt p) ∧
      (FilterWorkspace wsUnit (FilterNearAndFarPoints 0 (F.num 0) (F.num 1) cloudW) =
          FilterNearAndFarPoints 0 (F.num 0) (F.num 1) (FilterWorkspace wsUnit cloudW) ∧
        FilterWorkspace wsUnit (FilterNearAndFarPoints 0 (F.num 0) (F.num 1) cloudW) =
          cloudW.filter fun p => fnfMask 0 (F.num 0) (F.num 1) p && wsMask wsUnit p) ∧
      (FilterWorkspaceN wsUnit
          (FilterNearAndFarPointsN 0 (F.num 0) (F.num 1) cloudW normalsW).1
          (FilterNearAndFarPointsN 0 (F.num 0) (F.num 1) cloudW normalsW).2 =
        FilterNearAndFarPointsN 0 (F.num 0) (F.num 1)
          (FilterWorkspaceN wsUnit cloudW normalsW).1
          (FilterWorkspaceN wsUnit cloudW normalsW).2 ∧
        FilterWorkspaceN wsUnit
          (FilterNearAndFarPointsN 0 (F.num 0) (F.num 1) cloudW normalsW).1
          (FilterNearAndFarPointsN 0 (F.num 0) (F.num 1) cloudW normalsW).2 =
          (applyMask (cloudW.map fun p => fnfMask 0 (F.num 0) (F.num 1) p && wsMask wsUnit p)
            cloudW,
          applyMask (cloudW.map fun p => fnfMask 0 (F.num 0) (F.num 1) p && wsMask wsUnit p)
            normalsW))) :=
  ⟨rfl, filter_stages_commute wsUnit 0 (F.num 0) (F.num 1) cloudW normalsW rfl⟩

-- NORMAL ESTIMATION AND ORIENTATION --------------------------------------

/-- Float scalar for `ComputeNormals`, over the reals: the orientation step
divides by a Euclidean norm (a square root), which the rationals lack.
Arithmetic on ordinary values is exact; NaN/Inf propagation follows IEEE. -/
inductive RF where
  | num (x : ℝ)
  | nan
  | inf
  | ninf

def RF.isnan : RF → Bool
  | .nan => true
  | _ => false

def RF.isinf : RF → Bool
  | .inf => true
  | .ninf => true
  | _ => false

def RF.isfinite : RF → Bool
  | .num _ => true
  | _ => false

noncomputable def RF.neg : RF → RF
  | .num a => .num (-a)
  | .nan => .nan
  | .inf => .ninf
  | .ninf => .inf

noncomputable def RF.add : RF → RF → RF
  | .nan, _ => .nan
  | _, .nan => .nan
  | .num a, .num b => .num (a + b)
  | .inf, .ninf => .nan
  | .ninf, .inf => .nan
  | .inf, _ => .inf
  | _, .inf => .inf
  | .ninf, _ => .ninf
  | _, .ninf => .ninf

noncomputable def RF.mul : RF → RF → RF
  | .nan, _ => .nan
  | _, .nan => .nan
  | .num a, .num b => .num (a * b)
  | .inf, .num b => if b = 0 then .nan else if 0 < b then .inf else .ninf
  | .num a, .inf => if a = 0 then .nan else if 0 < a then .inf else .ninf
  | .ninf, .num b => if b = 0 then .nan else if 0 < b then .ninf else .inf
  | .num a, .ninf => if a = 0 then .nan else if 0 < a then .ninf else .inf
  | .inf, .inf => .inf
  | .inf, .ninf => .ninf
  | .ninf, .inf => .ninf
  | .ninf, .ninf => .inf

noncomputable def RF.sub (a b : RF) : RF := a.add b.neg

noncomputable def RF.div : RF → RF → RF
  | .nan, _ => .nan
  | _, .nan => .nan
  | .num a, .num b =>
      if b = 0 then (if a = 0 then .nan else if 0 < a then .inf else .ninf)
      else .num (a / b)
  | .num _, .inf => .num 0
  | .num _, .ninf => .num 0
  | .inf, .num b => if 0 ≤ b then .inf else .ninf
  | .ninf, .num b => if 0 ≤ b then .ninf else .inf
  | .inf, .inf => .nan
  | .inf, .ninf => .nan
  | .ninf, .inf => .nan
  | .ninf, .ninf => .nan

/-- IEEE square root: NaN for negative or NaN input, Inf for +Inf. -/
noncomputable def RF.sqrt : RF → RF
  | .num a => if a < 0 then .nan else .num (Real.sqrt a)
  | .nan => .nan
  | .inf => .inf
  | .ninf => .nan

/-- IEEE `<`: any comparison involving NaN is false. -/
noncomputable def RF.ltb : RF → RF → Bool
  | .nan, _ => false
  | _, .nan => false
  | .ninf, .ninf => false
  | .ninf, _ => true
  | .inf, _ => false
  | .num _, .inf => true
  | .num a, .num b => decide (a < b)
  | .num _, .ninf => false

/-- IEEE `<=`: any comparison involving NaN is false. -/
noncomputable def RF.leb : RF → RF → Bool
  | .nan, _ => false
  | _, .nan => false
  | .ninf, _ => true
  | .inf, .inf => true
  | .inf, _ => false
  | .num _, .inf => true
  | .num _, .ninf => false
  | .num a, .num b => decide (a ≤ b)

/-- One row of an nx3 float array in the normals pipeline. -/
structure RPt where
  x : RF
  y : RF
  z : RF

/-- One row of `pc = viewPoints - cloud`. -/
noncomputable def subVec (a b : RPt) : RPt :=
  ⟨a.x.sub b.x, a.y.sub b.y, a.z.sub b.z⟩

/-- One row of `norm(pc, axis=1)`: the Euclidean norm. -/
noncomputable def norm3 (p : RPt) : RF :=
  (((p.x.mul p.x).add (p.y.mul p.y)).add (p.z.mul p.z)).sqrt

/-- One row of `pc /= pcMag`: divide each component by the row magnitude. -/
noncomputable def scaleDiv (p : RPt) (m : RF) : RPt :=
  ⟨p.x.div m, p.y.div m, p.z.div m⟩

/-- One row of `theta = sum(pc*normals, axis=1)`: the dot product. -/
noncomputable def dot3 (a b : RPt) : RF :=
  ((a.x.mul b.x).add (a.y.mul b.y)).add (a.z.mul b.z)

noncomputable def negVec (n : RPt) : RPt := ⟨n.x.neg, n.y.neg, n.z.neg⟩

/-- One row of `logical_or(isnan(normals).any(axis=1), isinf(normals).any(axis=1))`. -/
def hasBadComponent (n : RPt) : Bool :=
  (n.x.isnan || n.y.isnan || n.z.isnan) || (n.x.isinf || n.y.isinf || n.z.isinf)

/-- `normals[mask] = array([1,0,0])` applied to one row: a normal with any
non-finite component is replaced by (1,0,0), all others are unchanged. -/
def sanitizeNormal (n : RPt) : RPt :=
  if hasBadComponent n then ⟨RF.num 1, RF.num 0, RF.num 0⟩ else n

/-- The response of the native engine and file system for one
`ComputeNormals` run: the status code `PclComputeNormals` returns, the
normal buffer it fills, and the status `PclSavePcd` would return for each
file name. -/
structure NormalsEngine where
  status : Int
  rawNormals : List RPt
  saveStatus : String → Int

/-- `SavePcd(fileName, cloud)`: calls `PclSavePcd` and raises a save
exception iff the returned status is negative. -/
def SavePcd (eng : NormalsEngine) (fileName : String) (cloud : List RPt) :
    Except Err Unit :=
  if eng.saveStatus fileName < 0 then .error (.ioError fileName) else .ok ()

/-- The rows of `pc` after `pc = viewPoints - cloud; pc /= norm(pc, axis=1)`. -/
noncomputable def viewVecs (vps cloud : List RPt) : List RPt :=
  (List.zipWith subVec vps cloud).map fun v => scaleDiv v (norm3 v)

/-- `theta = sum(pc*normals, axis=1)`. -/
noncomputable def thetas (vps cloud normals : List RPt) : List RF :=
  List.zipWith dot3 (viewVecs vps cloud) normals

/-- `flip = theta < 0; normals[flip,:] = -normals[flip,:]`: negate exactly
the normals whose theta is (IEEE) less than zero. -/
noncomputable def orientFlip (theta : List RF) (normals : List RPt) : List RPt :=
  List.zipWith (fun t n => if RF.ltb t (RF.num 0) then negVec n else n) theta normals

/-- `ComputeNormals(cloud, viewPoints, ...)`.  Status -1 and -2 raise; any
other status falls through (the source only checks those two codes).  The
returned buffer is sanitized, then, when view points are supplied, theta is
computed; if any theta is NaN the source saves the cloud and the sanitized
normals with `SavePcd` (whose own exception, if raised, propagates) and
then raises the degeneracy exception; otherwise the flipped normals are
returned. -/
noncomputable def ComputeNormals (eng : NormalsEngine) (cloud : List RPt)
    (viewPoints : Option (List RPt)) : Except Err (List RPt) :=
  if eng.status = -1 then .error .configuration
  else if eng.status = -2 then .error .sizeMismatch
  else
    let normals := eng.rawNormals.map sanitizeNormal
    match viewPoints with
    | none => .ok normals
    | some vps =>
      let theta := thetas vps cloud normals
      if theta.any (fun t => t.isnan) then
        match SavePcd eng "cloud_error.pcd" cloud with
        | .error e => .error e
        | .ok _ =>
          match SavePcd eng "normals_error.pcd" normals with
          | .error e => .error e
          | .ok _ => .error .degeneracy
      else .ok (orientFlip theta normals)

theorem RF.isfinite_num {t : RF} (h : t.isfinite = true) : ∃ r : ℝ, t = RF.num r := by
  cases t with
  | num x => exact ⟨x, rfl⟩
  | nan => simp [RF.isfinite] at h
  | inf => simp [RF.isfinite] at h
  | ninf => simp [RF.isfinite] at h

theorem RF.not_nan_of_finite {t : RF} (h : t.isfinite = true) : t.isnan = false := by
  obtain ⟨r, hr⟩ := RF.isfinite_num h
  rw [hr]
  rfl

theorem RF.mul_neg_of_finite (a b : RF) (h : (RF.mul a b).isfinite = true) :
    RF.mul a b.neg = (RF.mul a b).neg := by
  cases a with
  | num x =>
    cases b with
    | num y =>
      show RF.num (x * -y) = RF.num (-(x * y))
      rw [mul_neg]
    | nan => simp [RF.mul, RF.isfinite] at h
    | inf => simp only [RF.mul] at h; split_ifs at h <;> simp [RF.isfinite] at h
    | ninf => simp only [RF.mul] at h; split_ifs at h <;> simp [RF.isfinite] at h
  | nan => simp [RF.mul, RF.isfinite] at h
  | inf =>
    cases b with
    | num y => simp only [RF.mul] at h; split_ifs at h <;> simp [RF.isfinite] at h
    | nan => simp [RF.mul, RF.isfinite] at h
    | inf => simp [RF.mul, RF.isfinite] at h
    | ninf => simp [RF.mul, RF.isfinite] at h
  | ninf =>
    cases b with
    | num y => simp only [RF.mul] at h; split_ifs at h <;> simp [RF.isfinite] at h
    | nan => simp [RF.mul, RF.isfinite] at h
    | inf => simp [RF.mul, RF.isfinite] at h
    | ninf => simp [RF.mul, RF.isfinite] at h

theorem RF.finite_of_add (a b : RF) (h : (RF.add a b).isfinite = true) :
    a.isfinite = true ∧ b.isfinite = true := by
  cases a <;> cases b <;> simp_all [RF.add, RF.isfinite]

theorem RF.add_neg_of_finite (a b : RF) (ha : a.isfinite = true) (hb : b.isfinite = true) :
    RF.add a.neg b.neg = (RF.add a b).neg := by
  cases a with
  | num x =>
    cases b with
    | num y =>
      show RF.num (-x + -y) = RF.num (-(x + y))
      rw [neg_add]
    | nan => simp [RF.isfinite] at hb
    | inf => simp [RF.isfinite] at hb
    | ninf => simp [RF.isfinite] at hb
  | nan => simp [RF.isfinite] at ha
  | inf => simp [RF.isfinite] at ha
  | ninf => simp [RF.isfinite] at ha

theorem dot3_negVec (v n : RPt) (h : (dot3 v n).isfinite = true) :
    dot3 v (negVec n) = (dot3 v n).neg := by
  have h1 := RF.finite_of_add _ _ h
  have h2 := RF.finite_of_add _ _ h1.1
  show RF.add (RF.add (v.x.mul n.x.neg) (v.y.mul n.y.neg)) (v.z.mul n.z.neg) =
    (dot3 v n).neg
  rw [RF.mul_neg_of_finite _ _ h2.1, RF.mul_neg_of_finite _ _ h2.2,
    RF.mul_neg_of_finite _ _ h1.2, RF.add_neg_of_finite _ _ h2.1 h2.2,
    RF.add_neg_of_finite _ _ h1.1 h1.2]
  rfl

/-- C5: the sanitize step of `ComputeNormals` replaces every engine normal
that has a NaN or Inf component with exactly (1,0,0) and leaves every
all-finite normal unchanged; with no view points supplied, the sanitized
array is exactly the returned value. -/
theorem computeNormals_sanitize (eng : NormalsEngine) (cloud : List RPt)
    (hs : 0 ≤ eng.status) :
    ComputeNormals eng cloud none = .ok (eng.rawNormals.map sanitizeNormal) ∧
      (∀ n : RPt, hasBadComponent n = true →
        sanitizeNormal n = ⟨RF.num 1, RF.num 0, RF.num 0⟩) ∧
      ∀ n : RPt, hasBadComponent n = false → sanitizeNormal n = n := by
  have h1 : eng.status ≠ -1 := by omega
  have h2 : eng.status ≠ -2 := by omega
  refine ⟨?_, ?_, ?_⟩
  · simp [ComputeNormals, h1, h2]
  · intro n hn
    simp [sanitizeNormal, hn]
  · intro n hn
    simp [sanitizeNormal, hn]

/-- C5 (witness): a concrete engine response holding one NaN normal and one
finite normal, with no view points. -/
theorem computeNormals_sanitize_w :
    (0 : Int) ≤ (0 : Int) ∧
      (ComputeNormals ⟨0, [⟨RF.nan, RF.num 0, RF.num 0⟩, ⟨RF.num 0, RF.num 1, RF.num 0⟩],
            fun _ => 0⟩ [] none =
          .ok (([⟨RF.nan, RF.num 0, RF.num 0⟩,
            ⟨RF.num 0, RF.num 1, RF.num 0⟩] : List RPt).map sanitizeNormal) ∧
        (∀ n : RPt, hasBadComponent n = true →
          sanitizeNormal n = ⟨RF.num 1, RF.num 0, RF.num 0⟩) ∧
        ∀ n : RPt, hasBadComponent n = false → sanitizeNormal n = n) :=
  ⟨by decide, computeNormals_sanitize
    ⟨0, [⟨RF.nan, RF.num 0, RF.num 0⟩, ⟨RF.num 0, RF.num 1, RF.num 0⟩], fun _ => 0⟩
    [] (by decide)⟩

/-- When every theta is finite, flipping exactly the negative-theta normals
makes every recomputed theta nonnegative. -/
theorem orient_nonneg : ∀ V N : List RPt,
    (∀ t ∈ List.zipWith dot3 V N, t.isfinite = true) →
    ∀ t ∈ List.zipWith dot3 V (orientFlip (List.zipWith dot3 V N) N),
      RF.leb (RF.num 0) t = true := by
  intro V
  induction V with
  | nil =>
    intro N hfin t ht
    simp at ht
  | cons v V ih =>
    intro N hfin t ht
    cases N with
    | nil => simp [orientFlip] at ht
    | cons n N =>
      have hsplit : orientFlip (List.zipWith dot3 (v :: V) (n :: N)) (n :: N) =
          (if RF.ltb (dot3 v n) (RF.num 0) then negVec n else n) ::
            orientFlip (List.zipWith dot3 V N) N := rfl
      rw [hsplit, List.zipWith_cons_cons] at ht
      have hf : (dot3 v n).isfinite = true := by
        apply hfin
        rw [List.zipWith_cons_cons]
        exact List.mem_cons_self _ _
      rcases List.mem_cons.mp ht with h1 | h2
      · subst h1
        obtain ⟨r, hr⟩ := RF.isfinite_num hf
        rw [hr]
        by_cases hlt : r < 0
        · have hc : RF.ltb (RF.num r) (RF.num 0) = true := by
            simp [RF.ltb, hlt]
          rw [hc]
          simp only [if_true]
          rw [dot3_negVec v n hf, hr]
          show RF.leb (RF.num 0) (RF.num (-r)) = true
          simp [RF.leb]
          linarith
        · have hc : RF.ltb (RF.num r) (RF.num 0) = false := by
            simp [RF.ltb, hlt]
          rw [hc]
          simp only [Bool.false_eq_true, if_false]
          rw [hr]
          show RF.leb (RF.num 0) (RF.num r) = true
          simp [RF.leb]
          linarith [le_of_not_lt hlt]
      · refine ih N ?_ t h2
        intro u hu
        apply hfin
        rw [List.zipWith_cons_cons]
        exact List.mem_cons_of_mem _ hu

/-- C6: with view points supplied and every theta finite, `ComputeNormals`
returns exactly the sanitized normals with those of negative theta negated,
and every returned normal has a nonnegative dot product with its normalized
viewing vector. -/
theorem computeNormals_orientation (eng : NormalsEngine) (cloud vps : List RPt)
    (hs : 0 ≤ eng.status)
    (hfin : ∀ t ∈ thetas vps cloud (eng.rawNormals.map sanitizeNormal),
      t.isfinite = true) :
    ComputeNormals eng cloud (some vps) =
        .ok (orientFlip (thetas vps cloud (eng.rawNormals.map sanitizeNormal))
          (eng.rawNormals.map sanitizeNormal)) ∧
      ∀ t ∈ List.zipWith dot3 (viewVecs vps cloud)
          (orientFlip (thetas vps cloud (eng.rawNormals.map sanitizeNormal))
            (eng.rawNormals.map sanitizeNormal)),
        RF.leb (RF.num 0) t = true := by
  have h1 : eng.status ≠ -1 := by omega
  have h2 : eng.status ≠ -2 := by omega
  have hnan : ((thetas vps cloud (eng.rawNormals.map sanitizeNormal)).any
      fun t => t.isnan) = false := by
    rw [List.any_eq_false]
    intro t ht
    simp [RF.not_nan_of_finite (hfin t ht)]
  constructor
  · simp [ComputeNormals, h1, h2, hnan]
  · exact orient_nonneg (viewVecs vps cloud) (eng.rawNormals.map sanitizeNormal) hfin

/-- Concrete engine response for the orientation witness: success status,
one normal pointing away from the view point, all saves succeeding. -/
noncomputable def engOrient : NormalsEngine :=
  ⟨0, [⟨RF.num (-1), RF.num 0, RF.num 0⟩], fun _ => 0⟩

/-- Concrete 1-point cloud at the origin. -/
noncomputable def cloudR : List RPt := [⟨RF.num 0, RF.num 0, RF.num 0⟩]

/-- Concrete view point at distance 1 along x. -/
noncomputable def vpsR : List RPt := [⟨RF.num 1, RF.num 0, RF.num 0⟩]

/-- C6 (witness): the orientation theorem applied to the concrete engine
response, cloud and view point, whose single theta is the finite value -1. -/
theorem computeNormals_orientation_w :
    (0 : Int) ≤ engOrient.status ∧
      (∀ t ∈ thetas vpsR cloudR (engOrient.rawNormals.map sanitizeNormal),
        t.isfinite = true) ∧
      (ComputeNormals engOrient cloudR (some vpsR) =
          .ok (orientFlip (thetas vpsR cloudR (engOrient.rawNormals.map sanitizeNormal))
            (engOrient.rawNormals.map sanitizeNormal)) ∧
        ∀ t ∈ List.zipWith dot3 (viewVecs vpsR cloudR)
            (orientFlip (thetas vpsR cloudR (engOrient.rawNormals.map sanitizeNormal))
              (engOrient.rawNormals.map sanitizeNormal)),
          RF.leb (RF.num 0) t = true) := by
  have hfin : ∀ t ∈ thetas vpsR cloudR (engOrient.rawNormals.map sanitizeNormal),
      t.isfinite = true := by
    intro t ht
    norm_num [thetas, viewVecs, subVec, norm3, scaleDiv, dot3, sanitizeNormal,
      hasBadComponent, RF.add, RF.mul, RF.sub, RF.neg, RF.div, RF.sqrt, RF.isnan,
      RF.isinf, Real.sqrt_one, engOrient, cloudR, vpsR] at ht
    subst ht
    rfl
  exact ⟨by decide, hfin, computeNormals_orientation engOrient cloudR vpsR (by decide) hfin⟩

/-- C4 (counterexample): a view point coinciding with its cloud point makes
theta NaN; with the save of "cloud_error.pcd" failing, `ComputeNormals`
raises the save error, not the degeneracy error — the dump failure masks
the original error, contrary to the claim. -/
theorem computeNormals_dump_masks_cex :
    ComputeNormals ⟨0, [⟨RF.num 1, RF.num 0, RF.num 0⟩], fun _ => -1⟩
        [⟨RF.num 0, RF.num 0, RF.num 0⟩] (some [⟨RF.num 0, RF.num 0, RF.num 0⟩]) =
      .error (Err.ioError "cloud_error.pcd") ∧
      Err.ioError "cloud_error.pcd" ≠ Err.degeneracy := by
  refine ⟨?_, by decide⟩
  norm_num [ComputeNormals, thetas, viewVecs, subVec, norm3, scaleDiv, dot3,
    sanitizeNormal, hasBadComponent, RF.add, RF.mul, RF.sub, RF.neg, RF.div, RF.sqrt,
    RF.isnan, RF.isinf, SavePcd, Real.sqrt_zero]

/-- C4 (amended): when some theta is NaN, `ComputeNormals` attempts to save
the cloud and then the sanitized normals and raises the degeneracy error
only if both saves succeed; if a save fails, its own IO error propagates to
the caller in place of the degeneracy error. -/
theorem computeNormals_dump_behavior (eng : NormalsEngine) (cloud vps : List RPt)
    (hs : 0 ≤ eng.status)
    (hnan : ((thetas vps cloud (eng.rawNormals.map sanitizeNormal)).any
      fun t => t.isnan) = true) :
    (eng.saveStatus "cloud_error.pcd" < 0 →
      ComputeNormals eng cloud (some vps) = .error (.ioError "cloud_error.pcd")) ∧
    (0 ≤ eng.saveStatus "cloud_error.pcd" → eng.saveStatus "normals_error.pcd" < 0 →
      ComputeNormals eng cloud (some vps) = .error (.ioError "normals_error.pcd")) ∧
    (0 ≤ eng.saveStatus "cloud_error.pcd" → 0 ≤ eng.saveStatus "normals_error.pcd" →
      ComputeNormals eng cloud (some vps) = .error .degeneracy) := by
  have h1 : eng.status ≠ -1 := by omega
  have h2 : eng.status ≠ -2 := by omega
  refine ⟨?_, ?_, ?_⟩
  · intro hc
    simp [ComputeNormals, h1, h2, hnan, SavePcd, hc]
  · intro hc hn
    have hc2 : ¬eng.saveStatus "cloud_error.pcd" < 0 := by omega
    simp [ComputeNormals, h1, h2, hnan, SavePcd, hc2, hn]
  · intro hc hn
    have hc2 : ¬eng.saveStatus "cloud_error.pcd" < 0 := by omega
    have hn2 : ¬eng.saveStatus "normals_error.pcd" < 0 := by omega
    simp [ComputeNormals, h1, h2, hnan, SavePcd, hc2, hn2]

/-- Concrete engine for the dump-behavior witness: success status, one
finite normal, every save failing. -/
noncomputable def engDump : NormalsEngine :=
  ⟨0, [⟨RF.num 1, RF.num 0, RF.num 0⟩], fun _ => -1⟩

/-- C4 (witness): the dump-behavior theorem applied to a concrete input
whose theta is NaN (view point equal to the cloud point) and whose saves
fail. -/
theorem computeNormals_dump_behavior_w :
    (0 : Int) ≤ engDump.status ∧
      ((thetas cloudR cloudR (engDump.rawNormals.map sanitizeNormal)).any
        fun t => t.isnan) = true ∧
      ((engDump.saveStatus "cloud_error.pcd" < 0 →
        ComputeNormals engDump cloudR (some cloudR) =
          .error (.ioError "cloud_error.pcd")) ∧
      (0 ≤ engDump.saveStatus "cloud_error.pcd" →
          engDump.saveStatus "normals_error.pcd" < 0 →
        ComputeNormals engDump cloudR (some cloudR) =
          .error (.ioError "normals_error.pcd")) ∧
      (0 ≤ engDump.saveStatus "cloud_error.pcd" →
          0 ≤ engDump.saveStatus "normals_error.pcd" →
        ComputeNormals engDump cloudR (some cloudR) = .error .degeneracy)) := by
  have hnan : ((thetas cloudR cloudR (engDump.rawNormals.map sanitizeNormal)).any
      fun t => t.isnan) = true := by
    norm_num [thetas, viewVecs, subVec, norm3, scaleDiv, dot3, sanitizeNormal,
      hasBadComponent, RF.add, RF.mul, RF.sub, RF.neg, RF.div, RF.sqrt, RF.isnan,
      RF.isinf, Real.sqrt_zero, engDump, cloudR]
  exact ⟨by decide, hnan,
    computeNormals_dump_behavior engDump cloudR cloudR (by decide) hnan⟩

end PointCloud
